import Mathlib

/-!
# Formal model of the Drip SDK resilience layer

Shallow embedding of `src/resilience.ts`: the token-bucket `RateLimiter`,
the three-state `CircuitBreaker`, the retry utilities, the windowed
`MetricsCollector`, and the `ResilienceManager.execute` orchestration loop.

Timestamps (`Date.now()` / `performance.now()` values) are modelled as
integers (milliseconds) threaded explicitly through each operation that
reads the clock.  Real-valued quantities (token counts, durations) are
modelled as rationals.  JavaScript exceptions become explicit `Except`
values, and methods that mutate `this` become functions from state to
state (paired with their return value where the source returns one).
-/

namespace Drip

/-! ## Circuit breaker (`src/resilience.ts`, `CircuitBreaker`) -/

/-- Circuit breaker states: `'closed' | 'open' | 'half_open'`.
JavaScript's `'open'` is rendered `opened` because `open` is a Lean keyword. -/
inductive CircuitState where
  | closed
  | opened
  | half_open
deriving DecidableEq, Repr

/-- Configuration for circuit breaker (`CircuitBreakerConfig`). -/
structure CircuitBreakerConfig where
  failureThreshold : Nat
  successThreshold : Nat
  timeoutMs : Int
  enabled : Bool
deriving DecidableEq, Repr

/-- Default circuit breaker configuration (`DEFAULT_CIRCUIT_BREAKER_CONFIG`). -/
def DEFAULT_CIRCUIT_BREAKER_CONFIG : CircuitBreakerConfig :=
  { failureThreshold := 5, successThreshold := 2, timeoutMs := 30000, enabled := true }

/-- Mutable state of a `CircuitBreaker` instance: its `name`, `config`,
`state`, `failureCount`, `successCount` and nullable `lastFailureTime`. -/
structure CircuitBreaker where
  name : String
  config : CircuitBreakerConfig
  state : CircuitState
  failureCount : Nat
  successCount : Nat
  lastFailureTime : Option Int
deriving DecidableEq, Repr

namespace CircuitBreaker

/-- Constructor: `new CircuitBreaker(name, config)` starts `closed` with zero
counters and no recorded failure time. -/
def mk' (name : String) (config : CircuitBreakerConfig) : CircuitBreaker :=
  { name := name
    config := config
    state := .closed
    failureCount := 0
    successCount := 0
    lastFailureTime := none }

/-- `checkStateTransition()`: if the breaker is `open`, `lastFailureTime` is set
and at least `timeoutMs` has elapsed, move to `half_open` and zero
`successCount`.  `now` stands for `Date.now()`. -/
def checkStateTransition (cb : CircuitBreaker) (now : Int) : CircuitBreaker :=
  match cb.state, cb.lastFailureTime with
  | .opened, some t =>
      if now - t ≥ cb.config.timeoutMs then
        { cb with state := .half_open, successCount := 0 }
      else cb
  | _, _ => cb

/-- `getState()`: run the lazy transition check, then return the state.
The returned pair is (returned value, updated breaker). -/
def getState (cb : CircuitBreaker) (now : Int) : CircuitState × CircuitBreaker :=
  let cb' := cb.checkStateTransition now
  (cb'.state, cb')

/-- `recordSuccess()`: no-op when disabled; in `half_open`, bump
`successCount` and close the circuit (resetting `failureCount`) once the
threshold is reached; in `closed`, reset `failureCount`. -/
def recordSuccess (cb : CircuitBreaker) : CircuitBreaker :=
  if !cb.config.enabled then cb
  else
    match cb.state with
    | .half_open =>
        let cb := { cb with successCount := cb.successCount + 1 }
        if cb.successCount ≥ cb.config.successThreshold then
          { cb with state := .closed, failureCount := 0 }
        else cb
    | .closed => { cb with failureCount := 0 }
    | .opened => cb

/-- `recordFailure()`: no-op when disabled; otherwise bump `failureCount`,
stamp `lastFailureTime := now`, reopen from `half_open` on any failure, and
open from `closed` once `failureCount ≥ failureThreshold`. -/
def recordFailure (cb : CircuitBreaker) (now : Int) : CircuitBreaker :=
  if !cb.config.enabled then cb
  else
    let cb := { cb with failureCount := cb.failureCount + 1, lastFailureTime := some now }
    match cb.state with
    | .half_open => { cb with state := .opened }
    | .closed =>
        if cb.failureCount ≥ cb.config.failureThreshold then
          { cb with state := .opened }
        else cb
    | .opened => cb

/-- `allowRequest()`: always true when disabled; otherwise run the lazy
transition check and admit in `closed` and `half_open`, reject in `open`. -/
def allowRequest (cb : CircuitBreaker) (now : Int) : Bool × CircuitBreaker :=
  if !cb.config.enabled then (true, cb)
  else
    let cb' := cb.checkStateTransition now
    match cb'.state with
    | .closed => (true, cb')
    | .half_open => (true, cb')
    | .opened => (false, cb')

/-- `getTimeUntilRetry()`: `max(0, timeoutMs - elapsed)` when `open` with a
recorded failure time, else 0.  Note the source does not run
`checkStateTransition` here; it only reads the fields. -/
def getTimeUntilRetry (cb : CircuitBreaker) (now : Int) : Int :=
  match cb.state, cb.lastFailureTime with
  | .opened, some t => max 0 (cb.config.timeoutMs - (now - t))
  | _, _ => 0

/-- The state after `n` consecutive `recordFailure()` calls, all observing
the same clock value `now`. -/
def recordFailureIter (cb : CircuitBreaker) (now : Int) : Nat → CircuitBreaker
  | 0 => cb
  | n + 1 => (recordFailureIter cb now n).recordFailure now

/-- `reset()`: force `closed`, zero both counters, clear `lastFailureTime`. -/
def reset (cb : CircuitBreaker) : CircuitBreaker :=
  { cb with
    state := .closed
    failureCount := 0
    successCount := 0
    lastFailureTime := none }

end CircuitBreaker

/-! ## Rate limiter (`src/resilience.ts`, `RateLimiter`) -/

/-- Configuration for rate limiting (`RateLimiterConfig`). -/
structure RateLimiterConfig where
  requestsPerSecond : ℚ
  burstSize : ℚ
  enabled : Bool
deriving DecidableEq, Repr

/-- Default rate limiter configuration (`DEFAULT_RATE_LIMITER_CONFIG`). -/
def DEFAULT_RATE_LIMITER_CONFIG : RateLimiterConfig :=
  { requestsPerSecond := 100, burstSize := 200, enabled := true }

/-- Mutable state of a `RateLimiter` instance: `config`, the real-valued
`tokens` bucket and the `lastRefill` timestamp. -/
structure RateLimiter where
  config : RateLimiterConfig
  tokens : ℚ
  lastRefill : Int
deriving DecidableEq, Repr

namespace RateLimiter

/-- Constructor: `new RateLimiter(config)` fills the bucket to `burstSize`
and stamps `lastRefill` with the current time. -/
def mk' (config : RateLimiterConfig) (now : Int) : RateLimiter :=
  { config := config, tokens := config.burstSize, lastRefill := now }

/-- `refill()`: `tokens = min(burstSize, tokens + elapsedSeconds * rps)`,
`lastRefill = now`; elapsed time is converted from ms to seconds. -/
def refill (rl : RateLimiter) (now : Int) : RateLimiter :=
  { rl with
    tokens := min rl.config.burstSize
      (rl.tokens + ((now - rl.lastRefill : Int) : ℚ) / 1000 * rl.config.requestsPerSecond)
    lastRefill := now }

/-- `tryAcquire()`: true immediately when disabled; otherwise refill, and if
at least one token is available consume it and return true, else false. -/
def tryAcquire (rl : RateLimiter) (now : Int) : Bool × RateLimiter :=
  if !rl.config.enabled then (true, rl)
  else
    let rl := rl.refill now
    if rl.tokens ≥ 1 then (true, { rl with tokens := rl.tokens - 1 })
    else (false, rl)

/-- The state after `n` consecutive `tryAcquire()` calls, all at the same
instant `now` (no time elapses between calls). -/
def tryAcquireIter (rl : RateLimiter) (now : Int) : Nat → RateLimiter
  | 0 => rl
  | n + 1 => ((tryAcquireIter rl now n).tryAcquire now).2

end RateLimiter

/-! ## Retry utilities (`src/resilience.ts`) -/

/-- Configuration for retry behavior (`RetryConfig`). -/
structure RetryConfig where
  maxRetries : Nat
  baseDelayMs : ℚ
  maxDelayMs : ℚ
  exponentialBase : ℚ
  jitter : ℚ
  retryableStatusCodes : List Int
  enabled : Bool
deriving DecidableEq, Repr

/-- Default retry configuration (`DEFAULT_RETRY_CONFIG`). -/
def DEFAULT_RETRY_CONFIG : RetryConfig :=
  { maxRetries := 3
    baseDelayMs := 100
    maxDelayMs := 10000
    exponentialBase := 2
    jitter := 1/10
    retryableStatusCodes := [429, 500, 502, 503, 504]
    enabled := true }

/-- A JavaScript error value as `isRetryableError` inspects it: whether it is
an `Error` instance, its `name`, its `message`, and an optional `statusCode`
property. -/
structure ErrObj where
  isErrorInstance : Bool
  name : String
  message : String
  statusCode : Option Int
deriving DecidableEq, Repr

/-- JavaScript `String.prototype.includes`: substring containment. -/
def strIncludes (s sub : String) : Bool :=
  decide (sub.data <:+: s.data)

/-- The network-failure test in `isRetryableError`: the message contains one
of the tokens `fetch`, `network`, `ECONNREFUSED`, `ETIMEDOUT`. -/
def hasNetworkToken (msg : String) : Bool :=
  strIncludes msg "fetch" || strIncludes msg "network" ||
    strIncludes msg "ECONNREFUSED" || strIncludes msg "ETIMEDOUT"

/-- `isRetryableError(error, config)`: for an `Error` instance, true when the
message carries a network-failure token, else decided by membership of the
error's `statusCode` (when present) in `config.retryableStatusCodes`;
false for non-`Error` values and for errors with neither signal. -/
def isRetryableError (e : ErrObj) (config : RetryConfig) : Bool :=
  if e.isErrorInstance then
    if hasNetworkToken e.message then true
    else
      match e.statusCode with
      | some code => config.retryableStatusCodes.contains code
      | none => false
  else false

/-! ## Metrics (`src/resilience.ts`, `MetricsCollector`) -/

/-- Metrics for a single request (`RequestMetrics`). -/
structure RequestMetrics where
  method : String
  endpoint : String
  statusCode : Option Int
  durationMs : ℚ
  success : Bool
  timestamp : Int
  error : Option String
  retryCount : Nat
deriving DecidableEq, Repr

/-- State of a `MetricsCollector`: the bounded `metrics` window plus the
lifetime counters. -/
structure MetricsCollector where
  windowSize : Nat
  metrics : List RequestMetrics
  totalRequests : Nat
  totalSuccesses : Nat
  totalFailures : Nat
deriving DecidableEq, Repr

namespace MetricsCollector

/-- Constructor: `new MetricsCollector(windowSize)` (default 1000) starts with
an empty window and zero counters. -/
def mk' (windowSize : Nat := 1000) : MetricsCollector :=
  { windowSize := windowSize
    metrics := []
    totalRequests := 0
    totalSuccesses := 0
    totalFailures := 0 }

/-- The `while (this.metrics.length > this.windowSize) this.metrics.shift()`
loop of `record`: drop oldest entries until at most `w` remain. -/
def trimWindow (w : Nat) : List RequestMetrics → List RequestMetrics
  | [] => []
  | x :: xs => if xs.length + 1 > w then trimWindow w xs else x :: xs

/-- `record(metrics)`: append to the window, bump `totalRequests` and the
matching success/failure counter, then evict oldest entries past capacity. -/
def record (mc : MetricsCollector) (m : RequestMetrics) : MetricsCollector :=
  { mc with
    metrics := trimWindow mc.windowSize (mc.metrics ++ [m])
    totalRequests := mc.totalRequests + 1
    totalSuccesses := if m.success then mc.totalSuccesses + 1 else mc.totalSuccesses
    totalFailures := if m.success then mc.totalFailures else mc.totalFailures + 1 }

end MetricsCollector

/-! ## ResilienceManager.execute (`src/resilience.ts`)

The manager's `execute` is async and reads the clock; the model threads the
relevant clock readings as parameters (`duration` for the
`performance.now()` difference recorded in metrics, `timestamp` for
`Date.now()` stamped on metrics, `now` for the `Date.now()` readings of the
breaker).  The wrapped operation `fn` is modelled as a function from the
attempt index to that attempt's result, so one value of `fn` describes
every behaviour of the operation across the retry loop.  The rate limiter's
blocking `acquire(30000)` is summarised by its boolean result `acquired`.

The `ExecResult` record carries, besides the outcome and the updated
breaker/collector, instrumentation counters that count the calls `execute`
makes: `breakerRecords` counts `recordSuccess`/`recordFailure` invocations,
`metricRecords` counts `metrics.record` invocations, `fnCalls` counts
invocations of the wrapped operation, and `recorded` remembers the
`RequestMetrics` value passed to the last `metrics.record` call (if any). -/

/-- The error outcomes `execute` can throw: the rate-limiter timeout error,
`CircuitBreakerOpenError(name, timeUntilRetryMs)`, the operation's own error
re-thrown unwrapped, `RetryExhaustedError(attempts, lastError)`, and the
defensive `'Unexpected execution path'` error. -/
inductive ExecError where
  | rateLimiterTimeout
  | circuitOpen (circuitName : String) (timeUntilRetryMs : Int)
  | opError (e : ErrObj)
  | retryExhausted (attempts : Nat) (lastError : ErrObj)
  | unexpectedPath
deriving DecidableEq, Repr

/-- Result of a modelled `execute` call: the outcome (returned value or
thrown error), the final breaker and collector states, the final
`retryCount`, and the instrumentation counters described above. -/
structure ExecResult (T : Type) where
  outcome : Except ExecError T
  cb : CircuitBreaker
  mc : Option MetricsCollector
  retryCount : Nat
  breakerRecords : Nat
  metricRecords : Nat
  fnCalls : Nat
  recorded : Option RequestMetrics

/-- The terminal success branch of the attempt loop: `recordSuccess` on the
breaker, record a success metric with `statusCode: 200` (when a collector is
present), and return the operation's result. -/
def successResult {T : Type} (result : T) (method endpoint : String)
    (duration : ℚ) (timestamp : Int) (retryCount : Nat)
    (cb : CircuitBreaker) (mc : Option MetricsCollector)
    (breakerRecords metricRecords fnCalls : Nat) : ExecResult T :=
  let m : RequestMetrics :=
    { method := method
      endpoint := endpoint
      statusCode := some 200
      durationMs := duration
      success := true
      timestamp := timestamp
      error := none
      retryCount := retryCount }
  { outcome := .ok result
    cb := cb.recordSuccess
    mc := mc.map (fun c => c.record m)
    retryCount := retryCount
    breakerRecords := breakerRecords + 1
    metricRecords := metricRecords + (if mc.isSome then 1 else 0)
    fnCalls := fnCalls + 1
    recorded := if mc.isSome then some m else none }

/-- The terminal failure branch of the attempt loop: `recordFailure` on the
breaker, record a failure metric whose status code is extracted from the
error (null when absent), and re-throw the operation's error unwrapped. -/
def failureResult {T : Type} (e : ErrObj) (method endpoint : String)
    (duration : ℚ) (timestamp now : Int) (retryCount : Nat)
    (cb : CircuitBreaker) (mc : Option MetricsCollector)
    (breakerRecords metricRecords fnCalls : Nat) : ExecResult T :=
  let m : RequestMetrics :=
    { method := method
      endpoint := endpoint
      statusCode := e.statusCode
      durationMs := duration
      success := false
      timestamp := timestamp
      error := some e.name
      retryCount := retryCount }
  { outcome := .error (.opError e)
    cb := cb.recordFailure now
    mc := mc.map (fun c => c.record m)
    retryCount := retryCount
    breakerRecords := breakerRecords + 1
    metricRecords := metricRecords + (if mc.isSome then 1 else 0)
    fnCalls := fnCalls + 1
    recorded := if mc.isSome then some m else none }

/-- The defensive fallback after the attempt loop: `RetryExhaustedError`
when some error was seen, the `'Unexpected execution path'` error
otherwise. -/
def fallbackResult {T : Type} (retry : RetryConfig) (lastError : Option ErrObj)
    (retryCount : Nat) (cb : CircuitBreaker) (mc : Option MetricsCollector)
    (breakerRecords metricRecords fnCalls : Nat) : ExecResult T :=
  { outcome :=
      match lastError with
      | some e => .error (.retryExhausted (retry.maxRetries + 1) e)
      | none => .error .unexpectedPath
    cb := cb
    mc := mc
    retryCount := retryCount
    breakerRecords := breakerRecords
    metricRecords := metricRecords
    fnCalls := fnCalls
    recorded := none }

/-- The `for (let attempt = 0; attempt <= maxRetries; attempt++)` loop of
`execute`, entered at `attempt` with the given accumulated state.  On
success: the terminal success branch.  On failure: if retryable and
attempts remain, back off and continue; otherwise the terminal failure
branch.  If the loop index passes `maxRetries` the post-loop fallback
runs. -/
def executeLoop {T : Type} (retry : RetryConfig) (fn : Nat → Except ErrObj T)
    (method endpoint : String) (duration : ℚ) (timestamp now : Int)
    (attempt retryCount : Nat) (lastError : Option ErrObj)
    (cb : CircuitBreaker) (mc : Option MetricsCollector)
    (breakerRecords metricRecords fnCalls : Nat) : ExecResult T :=
  if _h : attempt ≤ retry.maxRetries then
    match fn attempt with
    | .ok result =>
        successResult result method endpoint duration timestamp retryCount
          cb mc breakerRecords metricRecords fnCalls
    | .error e =>
        if h2 : (retry.enabled && isRetryableError e retry) = true
            ∧ attempt < retry.maxRetries then
          executeLoop retry fn method endpoint duration timestamp now
            (attempt + 1) (retryCount + 1) (some e) cb mc
            breakerRecords metricRecords (fnCalls + 1)
        else
          failureResult e method endpoint duration timestamp now retryCount
            cb mc breakerRecords metricRecords fnCalls
  else
    fallbackResult retry lastError retryCount cb mc
      breakerRecords metricRecords fnCalls
termination_by retry.maxRetries + 1 - attempt
decreasing_by simp_wf; omega

/-- `ResilienceManager.execute(fn, method, endpoint)`: rate limiting
(`acquired` is the result of `rateLimiter.acquire(30000)`), then the
circuit-breaker admission check, then the retry loop starting at attempt 0
with zero counters and no recorded error. -/
def execute {T : Type} (retry : RetryConfig) (cb : CircuitBreaker)
    (mc : Option MetricsCollector) (fn : Nat → Except ErrObj T)
    (method endpoint : String) (acquired : Bool) (duration : ℚ)
    (timestamp now : Int) : ExecResult T :=
  if !acquired then
    { outcome := .error .rateLimiterTimeout
      cb := cb
      mc := mc
      retryCount := 0
      breakerRecords := 0
      metricRecords := 0
      fnCalls := 0
      recorded := none }
  else
    let ar := cb.allowRequest now
    if !ar.1 then
      { outcome := .error (.circuitOpen ar.2.name (ar.2.getTimeUntilRetry now))
        cb := ar.2
        mc := mc
        retryCount := 0
        breakerRecords := 0
        metricRecords := 0
        fnCalls := 0
        recorded := none }
    else
      executeLoop retry fn method endpoint duration timestamp now
        0 0 none ar.2 mc 0 0 0

/-- Specification predicate for one run of the attempt loop started with
instrumentation counters `brs`/`mrs`: the run ends in the operation's result
or the operation's error (never the post-loop fallback); it makes exactly
one breaker-record call and exactly one metrics-record call (when a
collector is present); and the one recorded metric carries `statusCode 200`
on success and the error's own status code on failure. -/
abbrev LoopInvariant {T : Type} (mc : Option MetricsCollector) (brs mrs : Nat)
    (r : ExecResult T) : Prop :=
  ((∃ v, r.outcome = Except.ok v) ∨
      (∃ e, r.outcome = Except.error (ExecError.opError e))) ∧
    r.breakerRecords = brs + 1 ∧
    r.metricRecords = mrs + (if mc.isSome then 1 else 0) ∧
    (mc.isSome = true → ∃ rm, r.recorded = some rm ∧
      ((∃ v, r.outcome = Except.ok v) → rm.statusCode = some 200 ∧ rm.success = true) ∧
      (∀ e, r.outcome = Except.error (ExecError.opError e) →
        rm.statusCode = e.statusCode ∧ rm.success = false))

end Drip

/-! ## Circuit-breaker lemmas and claims -/

open Drip Drip.CircuitBreaker in
/-- A `recordFailure` in `closed` state that stays below the threshold keeps
the breaker closed and bumps the counter. -/
lemma recordFailure_closed_below (cb : Drip.CircuitBreaker) (now : Int)
    (hen : cb.config.enabled = true) (hst : cb.state = .closed)
    (hlt : cb.failureCount + 1 < cb.config.failureThreshold) :
    (cb.recordFailure now).state = .closed ∧
      (cb.recordFailure now).failureCount = cb.failureCount + 1 ∧
      (cb.recordFailure now).config = cb.config := by
  obtain ⟨name, config, state, fc, sc, lf⟩ := cb
  simp only at hen hst hlt
  subst hst
  simp only [CircuitBreaker.recordFailure, hen, Bool.not_true, Bool.false_eq_true,
    if_false, ge_iff_le]
  rw [if_neg (by omega)]
  exact ⟨rfl, rfl, rfl⟩

open Drip Drip.CircuitBreaker in
/-- A `recordFailure` in `closed` state that reaches the threshold opens the
breaker. -/
lemma recordFailure_closed_hit (cb : Drip.CircuitBreaker) (now : Int)
    (hen : cb.config.enabled = true) (hst : cb.state = .closed)
    (hge : cb.config.failureThreshold ≤ cb.failureCount + 1) :
    (cb.recordFailure now).state = .opened := by
  obtain ⟨name, config, state, fc, sc, lf⟩ := cb
  simp only at hen hst hge
  subst hst
  simp only [CircuitBreaker.recordFailure, hen, Bool.not_true, Bool.false_eq_true,
    if_false, ge_iff_le]
  rw [if_pos (by omega)]

open Drip Drip.CircuitBreaker in
/-- Below the threshold, iterated failures keep an initially clean closed
breaker closed, with `failureCount` equal to the number of failures. -/
lemma recordFailureIter_closed (cb : Drip.CircuitBreaker) (now : Int)
    (hen : cb.config.enabled = true) (hst : cb.state = .closed)
    (hfc : cb.failureCount = 0) :
    ∀ j, j < cb.config.failureThreshold →
      (cb.recordFailureIter now j).state = .closed ∧
        (cb.recordFailureIter now j).failureCount = j ∧
        (cb.recordFailureIter now j).config = cb.config := by
  intro j
  induction j with
  | zero => exact fun _ => ⟨hst, hfc, rfl⟩
  | succ n ih =>
      intro hlt
      obtain ⟨h1, h2, h3⟩ := ih (Nat.lt_of_succ_lt hlt)
      have step := recordFailure_closed_below (cb.recordFailureIter now n) now
        (by rw [h3]; exact hen) h1 (by rw [h2, h3]; exact hlt)
      refine ⟨step.1, ?_, ?_⟩
      · simp only [CircuitBreaker.recordFailureIter]
        rw [step.2.1, h2]
      · simp only [CircuitBreaker.recordFailureIter]
        rw [step.2.2, h3]

open Drip Drip.CircuitBreaker in
/-- A `recordSuccess` in `closed` state resets `failureCount` to 0. -/
lemma recordSuccess_closed (cb : Drip.CircuitBreaker)
    (hen : cb.config.enabled = true) (hst : cb.state = .closed) :
    cb.recordSuccess.state = .closed ∧ cb.recordSuccess.failureCount = 0 := by
  obtain ⟨name, config, state, fc, sc, lf⟩ := cb
  simp only at hen hst
  subst hst
  simp [CircuitBreaker.recordSuccess, hen]

open Drip Drip.CircuitBreaker in
/-- Claim C5: with `failureThreshold = k`, an enabled closed breaker with a
clean failure count stays `closed` through the first `k-1` `recordFailure`
calls, opens on the `k`-th, and a `recordSuccess` while closed resets
`failureCount` to 0. -/
theorem claim_C5_failure_threshold_opens (cb : Drip.CircuitBreaker) (now : Int)
    (k : Nat) (hen : cb.config.enabled = true) (hst : cb.state = .closed)
    (hth : cb.config.failureThreshold = k) (hfc : cb.failureCount = 0)
    (hk : 1 ≤ k) :
    (∀ j, j < k → (cb.recordFailureIter now j).state = .closed) ∧
      (cb.recordFailureIter now k).state = .opened ∧
      (∀ cb' : Drip.CircuitBreaker, cb'.config.enabled = true →
        cb'.state = .closed → cb'.recordSuccess.failureCount = 0) := by
  have base := recordFailureIter_closed cb now hen hst hfc
  refine ⟨fun j hj => (base j (hth ▸ hj)).1, ?_, fun cb' hen' hst' =>
    (recordSuccess_closed cb' hen' hst').2⟩
  obtain ⟨m, rfl⟩ : ∃ m, k = m + 1 := ⟨k - 1, by omega⟩
  obtain ⟨h1, h2, h3⟩ := base m (by omega)
  exact recordFailure_closed_hit (cb.recordFailureIter now m) now
    (by rw [h3]; exact hen) h1 (by rw [h2, h3, hth])

open Drip Drip.CircuitBreaker in
/-- Claim C5 witness: with `failureThreshold = 3`, two failures leave the
breaker closed, the third opens it, and a success while closed clears the
count. -/
theorem claim_C5_witness :
    ((CircuitBreaker.mk' ("drip_api")
        { DEFAULT_CIRCUIT_BREAKER_CONFIG with failureThreshold := 3 }).recordFailureIter 0 2).state
        = Drip.CircuitState.closed ∧
      ((CircuitBreaker.mk' ("drip_api")
        { DEFAULT_CIRCUIT_BREAKER_CONFIG with failureThreshold := 3 }).recordFailureIter 0 3).state
        = Drip.CircuitState.opened := by
  have h := claim_C5_failure_threshold_opens
    (CircuitBreaker.mk' ("drip_api")
      { DEFAULT_CIRCUIT_BREAKER_CONFIG with failureThreshold := 3 })
    0 3 rfl rfl rfl rfl (by decide)
  exact ⟨h.1 2 (by decide), h.2.1⟩

open Drip Drip.CircuitBreaker in
/-- Claim C3 counterexample: an enabled `half_open` breaker with
`successThreshold = 1` closes on `recordSuccess`, but `successCount` is left
at 1, not reset to 0 as the claim states — only `failureCount` is reset by
the `half_open → closed` transition. -/
theorem claim_C3_counterexample :
    (CircuitBreaker.recordSuccess
        ⟨"drip_api", ⟨5, 1, 30000, true⟩, .half_open, 2, 0, some 0⟩).state
        = Drip.CircuitState.closed ∧
      (CircuitBreaker.recordSuccess
        ⟨"drip_api", ⟨5, 1, 30000, true⟩, .half_open, 2, 0, some 0⟩).successCount ≠ 0 := by
  decide

open Drip Drip.CircuitBreaker in
/-- Claim C3 (amended): when an enabled `half_open` breaker reaches
`successThreshold` via `recordSuccess`, it transitions to `closed` and resets
`failureCount` to 0; `successCount` is not reset by this transition (it keeps
the just-incremented value and is zeroed again on the next `open →
half_open` transition). -/
theorem claim_C3_amended_close_resets_failures (cb : Drip.CircuitBreaker)
    (hen : cb.config.enabled = true) (hst : cb.state = .half_open)
    (hth : cb.config.successThreshold ≤ cb.successCount + 1) :
    cb.recordSuccess.state = .closed ∧ cb.recordSuccess.failureCount = 0 ∧
      cb.recordSuccess.successCount = cb.successCount + 1 := by
  obtain ⟨name, config, state, fc, sc, lf⟩ := cb
  simp only at hen hst hth
  subst hst
  simp only [CircuitBreaker.recordSuccess, hen, Bool.not_true, Bool.false_eq_true,
    if_false, ge_iff_le]
  rw [if_pos (by omega)]
  exact ⟨rfl, rfl, rfl⟩

open Drip Drip.CircuitBreaker in
/-- Claim C3 amended witness: with `successThreshold = 2` and one prior
half-open success, the next success closes the breaker, clears
`failureCount`, and leaves `successCount = 2`. -/
theorem claim_C3_amended_witness :
    (CircuitBreaker.recordSuccess
        ⟨"drip_api", ⟨5, 2, 30000, true⟩, .half_open, 3, 1, some 0⟩).state
        = Drip.CircuitState.closed ∧
      (CircuitBreaker.recordSuccess
        ⟨"drip_api", ⟨5, 2, 30000, true⟩, .half_open, 3, 1, some 0⟩).failureCount = 0 ∧
      (CircuitBreaker.recordSuccess
        ⟨"drip_api", ⟨5, 2, 30000, true⟩, .half_open, 3, 1, some 0⟩).successCount = 1 + 1 :=
  claim_C3_amended_close_resets_failures
    ⟨"drip_api", ⟨5, 2, 30000, true⟩, .half_open, 3, 1, some 0⟩ rfl rfl (by decide)

open Drip Drip.CircuitBreaker in
/-- Claim C4: an enabled `open` breaker with a recorded failure time reads as
`half_open` / admitting once `timeoutMs` has elapsed — `getState` returns
`half_open`, `allowRequest` returns true, `getTimeUntilRetry` returns 0 —
with the transition evaluated at read time; before `timeoutMs` has elapsed
it still reads as `open`: `getState` returns `open`, `allowRequest` returns
false, and `getTimeUntilRetry` returns the remaining positive wait. -/
theorem claim_C4_lazy_open_to_half_open (cb : Drip.CircuitBreaker)
    (now t : Int) (hen : cb.config.enabled = true) (hst : cb.state = .opened)
    (hlf : cb.lastFailureTime = some t) :
    (cb.config.timeoutMs ≤ now - t →
      (cb.getState now).1 = .half_open ∧ (cb.allowRequest now).1 = true ∧
        cb.getTimeUntilRetry now = 0) ∧
      (now - t < cb.config.timeoutMs →
        (cb.getState now).1 = .opened ∧ (cb.allowRequest now).1 = false ∧
          cb.getTimeUntilRetry now = cb.config.timeoutMs - (now - t) ∧
          0 < cb.getTimeUntilRetry now) := by
  obtain ⟨name, config, state, fc, sc, lf⟩ := cb
  simp only at hen hst hlf
  subst hst hlf
  constructor
  · intro helapsed
    simp only at helapsed
    refine ⟨?_, ?_, ?_⟩
    · simp [CircuitBreaker.getState, CircuitBreaker.checkStateTransition, helapsed]
    · simp [CircuitBreaker.allowRequest, CircuitBreaker.checkStateTransition, hen, helapsed]
    · show max 0 (config.timeoutMs - (now - t)) = 0
      exact max_eq_left (by omega)
  · intro helapsed
    simp only at helapsed
    have hne : ¬ (config.timeoutMs ≤ now - t) := by omega
    refine ⟨?_, ?_, ?_, ?_⟩
    · simp [CircuitBreaker.getState, CircuitBreaker.checkStateTransition, hne]
    · simp [CircuitBreaker.allowRequest, CircuitBreaker.checkStateTransition, hen, hne]
    · show max 0 (config.timeoutMs - (now - t)) = config.timeoutMs - (now - t)
      exact max_eq_right (by omega)
    · show 0 < max 0 (config.timeoutMs - (now - t))
      exact lt_of_lt_of_le (by omega) (le_max_right 0 _)

open Drip Drip.CircuitBreaker in
/-- Claim C4 witness: a breaker with `timeoutMs = 50` that failed at time 0
reads `half_open`/admitting/0 at time 60, and `open`/rejecting/40 at
time 10. -/
theorem claim_C4_witness :
    ((⟨"drip_api", ⟨5, 2, 50, true⟩, .opened, 5, 0, some 0⟩ :
        Drip.CircuitBreaker).getState 60).1 = Drip.CircuitState.half_open ∧
      ((⟨"drip_api", ⟨5, 2, 50, true⟩, .opened, 5, 0, some 0⟩ :
        Drip.CircuitBreaker).allowRequest 60).1 = true ∧
      (⟨"drip_api", ⟨5, 2, 50, true⟩, .opened, 5, 0, some 0⟩ :
        Drip.CircuitBreaker).getTimeUntilRetry 60 = 0 ∧
      ((⟨"drip_api", ⟨5, 2, 50, true⟩, .opened, 5, 0, some 0⟩ :
        Drip.CircuitBreaker).getState 10).1 = Drip.CircuitState.opened ∧
      ((⟨"drip_api", ⟨5, 2, 50, true⟩, .opened, 5, 0, some 0⟩ :
        Drip.CircuitBreaker).allowRequest 10).1 = false ∧
      (⟨"drip_api", ⟨5, 2, 50, true⟩, .opened, 5, 0, some 0⟩ :
        Drip.CircuitBreaker).getTimeUntilRetry 10 = 40 := by
  have h1 := claim_C4_lazy_open_to_half_open
    ⟨"drip_api", ⟨5, 2, 50, true⟩, .opened, 5, 0, some 0⟩ 60 0 rfl rfl rfl
  have h2 := claim_C4_lazy_open_to_half_open
    ⟨"drip_api", ⟨5, 2, 50, true⟩, .opened, 5, 0, some 0⟩ 10 0 rfl rfl rfl
  obtain ⟨a1, a2, a3⟩ := h1.1 (by decide)
  obtain ⟨b1, b2, b3, -⟩ := h2.2 (by decide)
  exact ⟨a1, a2, a3, b1, b2, by rw [b3]; decide⟩

/-! ## Rate-limiter lemmas and claim -/

open Drip Drip.RateLimiter in
/-- A `tryAcquire` with no elapsed time since the last refill: the refill is
a no-op (given the bucket is within capacity), so the call succeeds and
consumes one token exactly when at least one token is available. -/
lemma tryAcquire_noelapse (rl : Drip.RateLimiter) (now : Int)
    (hen : rl.config.enabled = true) (hl : rl.lastRefill = now)
    (hle : rl.tokens ≤ rl.config.burstSize) :
    (1 ≤ rl.tokens →
        (rl.tryAcquire now).1 = true ∧
        (rl.tryAcquire now).2.tokens = rl.tokens - 1) ∧
      (rl.tokens < 1 →
        (rl.tryAcquire now).1 = false ∧
        (rl.tryAcquire now).2.tokens = rl.tokens) ∧
      (rl.tryAcquire now).2.config = rl.config ∧
      (rl.tryAcquire now).2.lastRefill = now := by
  obtain ⟨⟨R, Bq, en⟩, tok, lr⟩ := rl
  simp only at hen hl hle
  subst hen hl
  simp only [RateLimiter.tryAcquire, RateLimiter.refill, Bool.not_true,
    Bool.false_eq_true, if_false, sub_self, Int.cast_zero, zero_div, zero_mul,
    add_zero, min_eq_right hle, ge_iff_le]
  refine ⟨fun h1 => ?_, fun h1 => ?_, ?_, ?_⟩
  · rw [if_pos h1]
    exact ⟨rfl, rfl⟩
  · rw [if_neg (not_le.mpr h1)]
    exact ⟨rfl, rfl⟩
  · split <;> rfl
  · split <;> rfl

open Drip Drip.RateLimiter in
/-- Token count of a fresh enabled limiter with integer burst `B` after `n`
immediate `tryAcquire` calls: `B - min n B`, with config and refill stamp
unchanged. -/
lemma tryAcquireIter_spec (R : ℚ) (B : Nat) (now : Int) :
    ∀ n,
      ((RateLimiter.mk' ⟨R, (B : ℚ), true⟩ now).tryAcquireIter now n).config
          = ⟨R, (B : ℚ), true⟩ ∧
        ((RateLimiter.mk' ⟨R, (B : ℚ), true⟩ now).tryAcquireIter now n).lastRefill = now ∧
        ((RateLimiter.mk' ⟨R, (B : ℚ), true⟩ now).tryAcquireIter now n).tokens
          = (B : ℚ) - (min n B : Nat) := by
  intro n
  induction n with
  | zero =>
      refine ⟨rfl, rfl, ?_⟩
      simp [RateLimiter.tryAcquireIter, RateLimiter.mk']
  | succ n ih =>
      obtain ⟨hc, hl, ht⟩ := ih
      have hle : ((RateLimiter.mk' ⟨R, (B : ℚ), true⟩ now).tryAcquireIter now n).tokens
          ≤ ((RateLimiter.mk' ⟨R, (B : ℚ), true⟩ now).tryAcquireIter now n).config.burstSize := by
        rw [ht, hc]
        have : (0 : ℚ) ≤ (min n B : Nat) := by positivity
        linarith
      have step := tryAcquire_noelapse _ now (by rw [hc]) hl hle
      simp only [RateLimiter.tryAcquireIter]
      rcases Nat.lt_or_ge n B with hn | hn
      · have h1 : 1 ≤ ((RateLimiter.mk' ⟨R, (B : ℚ), true⟩ now).tryAcquireIter now n).tokens := by
          rw [ht, min_eq_left hn.le]
          have : ((n : ℚ)) + 1 ≤ (B : ℚ) := by exact_mod_cast hn
          linarith
        refine ⟨by rw [step.2.2.1, hc], step.2.2.2, ?_⟩
        rw [(step.1 h1).2, ht, min_eq_left hn.le, min_eq_left hn]
        push_cast
        ring
      · have h1 : ((RateLimiter.mk' ⟨R, (B : ℚ), true⟩ now).tryAcquireIter now n).tokens < 1 := by
          rw [ht, min_eq_right hn]
          simp
        refine ⟨by rw [step.2.2.1, hc], step.2.2.2, ?_⟩
        rw [(step.2.1 h1).2, ht, min_eq_right hn, min_eq_right (by omega : B ≤ n + 1)]

open Drip Drip.RateLimiter in
/-- Claim C7: a fresh enabled `RateLimiter` with integer burst `B ≥ 1` and
rate `R > 0` admits exactly the first `B` immediate `tryAcquire()` calls and
rejects the `(B+1)`-th; each successful call consumes exactly one token, and
the token count always stays within `[0, B]`. -/
theorem claim_C7_burst_bound (R : ℚ) (B : Nat) (now : Int)
    (hB : 1 ≤ B) (hR : 0 < R) :
    (∀ n, n < B →
        (((RateLimiter.mk' ⟨R, (B : ℚ), true⟩ now).tryAcquireIter now n).tryAcquire now).1
          = true) ∧
      (((RateLimiter.mk' ⟨R, (B : ℚ), true⟩ now).tryAcquireIter now B).tryAcquire now).1
        = false ∧
      (∀ n, n < B →
        (((RateLimiter.mk' ⟨R, (B : ℚ), true⟩ now).tryAcquireIter now n).tryAcquire now).2.tokens
          = ((RateLimiter.mk' ⟨R, (B : ℚ), true⟩ now).tryAcquireIter now n).tokens - 1) ∧
      (∀ n, 0 ≤ ((RateLimiter.mk' ⟨R, (B : ℚ), true⟩ now).tryAcquireIter now n).tokens ∧
        ((RateLimiter.mk' ⟨R, (B : ℚ), true⟩ now).tryAcquireIter now n).tokens ≤ (B : ℚ)) := by
  have spec := tryAcquireIter_spec R B now
  have hstep : ∀ n,
      (1 ≤ ((RateLimiter.mk' ⟨R, (B : ℚ), true⟩ now).tryAcquireIter now n).tokens →
        (((RateLimiter.mk' ⟨R, (B : ℚ), true⟩ now).tryAcquireIter now n).tryAcquire now).1 = true ∧
        (((RateLimiter.mk' ⟨R, (B : ℚ), true⟩ now).tryAcquireIter now n).tryAcquire now).2.tokens
          = ((RateLimiter.mk' ⟨R, (B : ℚ), true⟩ now).tryAcquireIter now n).tokens - 1) ∧
      (((RateLimiter.mk' ⟨R, (B : ℚ), true⟩ now).tryAcquireIter now n).tokens < 1 →
        (((RateLimiter.mk' ⟨R, (B : ℚ), true⟩ now).tryAcquireIter now n).tryAcquire now).1 = false ∧
        (((RateLimiter.mk' ⟨R, (B : ℚ), true⟩ now).tryAcquireIter now n).tryAcquire now).2.tokens
          = ((RateLimiter.mk' ⟨R, (B : ℚ), true⟩ now).tryAcquireIter now n).tokens) := by
    intro n
    obtain ⟨hc, hl, ht⟩ := spec n
    have hle : ((RateLimiter.mk' ⟨R, (B : ℚ), true⟩ now).tryAcquireIter now n).tokens
        ≤ ((RateLimiter.mk' ⟨R, (B : ℚ), true⟩ now).tryAcquireIter now n).config.burstSize := by
      rw [ht, hc]
      have : (0 : ℚ) ≤ (min n B : Nat) := by positivity
      linarith
    have step := tryAcquire_noelapse _ now (by rw [hc]) hl hle
    exact ⟨step.1, step.2.1⟩
  have htok : ∀ n, n < B →
      1 ≤ ((RateLimiter.mk' ⟨R, (B : ℚ), true⟩ now).tryAcquireIter now n).tokens := by
    intro n hn
    rw [(spec n).2.2, min_eq_left hn.le]
    have : ((n : ℚ)) + 1 ≤ (B : ℚ) := by exact_mod_cast hn
    linarith
  refine ⟨fun n hn => ((hstep n).1 (htok n hn)).1, ?_, fun n hn => ((hstep n).1 (htok n hn)).2, ?_⟩
  · refine ((hstep B).2 ?_).1
    rw [(spec B).2.2, min_self]
    simp
  · intro n
    rw [(spec n).2.2]
    constructor
    · have : ((min n B : Nat) : ℚ) ≤ (B : ℚ) := by exact_mod_cast Nat.min_le_right n B
      linarith
    · have : (0 : ℚ) ≤ (min n B : Nat) := by positivity
      linarith

open Drip Drip.RateLimiter in
/-- Claim C7 witness: with `R = 5`, `B = 2`, the first two immediate
`tryAcquire` calls succeed and the third fails. -/
theorem claim_C7_witness :
    (((RateLimiter.mk' ⟨5, (2 : Nat), true⟩ 0).tryAcquireIter 0 0).tryAcquire 0).1 = true ∧
      (((RateLimiter.mk' ⟨5, (2 : Nat), true⟩ 0).tryAcquireIter 0 1).tryAcquire 0).1 = true ∧
      (((RateLimiter.mk' ⟨5, (2 : Nat), true⟩ 0).tryAcquireIter 0 2).tryAcquire 0).1 = false := by
  have h := claim_C7_burst_bound 5 2 0 (by decide) (by norm_num)
  exact ⟨h.1 0 (by decide), h.1 1 (by decide), h.2.1⟩

/-! ## Metrics-collector lemmas and claim -/

open Drip Drip.MetricsCollector in
/-- The eviction loop of `record` drops oldest entries: it equals dropping
everything beyond the last `w` elements. -/
lemma trimWindow_eq_drop (w : Nat) :
    ∀ l : List Drip.RequestMetrics,
      MetricsCollector.trimWindow w l = l.drop (l.length - w) := by
  intro l
  induction l with
  | nil => simp [MetricsCollector.trimWindow]
  | cons x xs ih =>
      simp only [MetricsCollector.trimWindow, List.length_cons]
      by_cases h : xs.length + 1 > w
      · rw [if_pos h, ih]
        have : xs.length + 1 - w = (xs.length - w) + 1 := by omega
        rw [this, List.drop_succ_cons]
      · rw [if_neg h]
        have : xs.length + 1 - w = 0 := by omega
        rw [this, List.drop_zero]

open Drip Drip.MetricsCollector in
/-- Folding `record` over a list of metrics: the window is the last
`windowSize` entries of everything ever pushed (oldest evicted first), and
the lifetime counters count every call, never decremented by eviction. -/
lemma foldl_record_spec (l : List Drip.RequestMetrics) :
    ∀ mc : Drip.MetricsCollector, mc.metrics.length ≤ mc.windowSize →
      (l.foldl MetricsCollector.record mc).windowSize = mc.windowSize ∧
        (l.foldl MetricsCollector.record mc).metrics
          = (mc.metrics ++ l).drop (mc.metrics.length + l.length - mc.windowSize) ∧
        (l.foldl MetricsCollector.record mc).totalRequests
          = mc.totalRequests + l.length ∧
        (l.foldl MetricsCollector.record mc).totalSuccesses
          = mc.totalSuccesses + (l.filter (fun m => m.success)).length ∧
        (l.foldl MetricsCollector.record mc).totalFailures
          = mc.totalFailures + (l.filter (fun m => !m.success)).length := by
  induction l with
  | nil =>
      intro mc hmc
      refine ⟨rfl, ?_, rfl, rfl, rfl⟩
      simp [Nat.sub_eq_zero_of_le hmc]
  | cons m ls ih =>
      intro mc hmc
      have hrec : (MetricsCollector.record mc m).metrics
          = (mc.metrics ++ [m]).drop (mc.metrics.length + 1 - mc.windowSize) := by
        simp [MetricsCollector.record, trimWindow_eq_drop]
      have hreclen : (MetricsCollector.record mc m).metrics.length ≤ mc.windowSize := by
        rw [hrec]
        simp only [List.length_drop, List.length_append, List.length_singleton]
        omega
      have hw : (MetricsCollector.record mc m).windowSize = mc.windowSize := rfl
      obtain ⟨s0, s1, s2, s3, s4⟩ := ih (MetricsCollector.record mc m) (by rw [hw]; exact hreclen)
      have hfold : (m :: ls).foldl MetricsCollector.record mc
          = ls.foldl MetricsCollector.record (MetricsCollector.record mc m) := rfl
      rw [hfold]
      refine ⟨by rw [s0, hw], ?_, ?_, ?_, ?_⟩
      · rw [s1, hrec, hw]
        have hd : mc.metrics.length + 1 - mc.windowSize ≤ (mc.metrics ++ [m]).length := by
          simp only [List.length_append, List.length_singleton]
          omega
        rw [← List.drop_append_of_le_length hd, List.drop_drop, List.append_assoc,
          List.singleton_append]
        congr 1
        simp only [List.length_drop, List.length_append, List.length_singleton,
          List.length_cons, List.length_nil]
        omega
      · have ht : (MetricsCollector.record mc m).totalRequests = mc.totalRequests + 1 := rfl
        rw [s2, ht, List.length_cons]
        omega
      · have hsc : (MetricsCollector.record mc m).totalSuccesses
            = if m.success then mc.totalSuccesses + 1 else mc.totalSuccesses := rfl
        rw [s3, hsc, List.filter_cons]
        cases hs : m.success
        · simp only [hs, Bool.false_eq_true, if_false]
        · simp only [hs, if_true, List.length_cons]
          omega
      · have hfl : (MetricsCollector.record mc m).totalFailures
            = if m.success then mc.totalFailures else mc.totalFailures + 1 := rfl
        rw [s4, hfl, List.filter_cons]
        cases hs : m.success
        · simp only [hs, Bool.false_eq_true, if_false, Bool.not_false, if_true,
            List.length_cons]
          omega
        · simp only [hs, if_true, Bool.not_true, Bool.false_eq_true, if_false]

open Drip Drip.MetricsCollector in
/-- Claim C8: after any sequence of `record()` calls on a collector with
window capacity `W`, the window holds the most recent at-most-`W` entries
(oldest evicted first) while the lifetime counters `totalRequests`,
`totalSuccesses` and `totalFailures` count every recorded call and are never
decremented by eviction.  Instantiating the list at 20 entries and `W = 10`
gives window length 10 and `totalRequests = 20`. -/
theorem claim_C8_window_and_lifetime_counters (W : Nat)
    (l : List Drip.RequestMetrics) :
    (l.foldl MetricsCollector.record (MetricsCollector.mk' W)).metrics
        = l.drop (l.length - W) ∧
      (l.foldl MetricsCollector.record (MetricsCollector.mk' W)).metrics.length
        = min l.length W ∧
      (l.foldl MetricsCollector.record (MetricsCollector.mk' W)).totalRequests
        = l.length ∧
      (l.foldl MetricsCollector.record (MetricsCollector.mk' W)).totalSuccesses
        = (l.filter (fun m => m.success)).length ∧
      (l.foldl MetricsCollector.record (MetricsCollector.mk' W)).totalFailures
        = (l.filter (fun m => !m.success)).length := by
  obtain ⟨s0, s1, s2, s3, s4⟩ :=
    foldl_record_spec l (MetricsCollector.mk' W) (by simp [MetricsCollector.mk'])
  have hw : (MetricsCollector.mk' W).windowSize = W := rfl
  have hm : (MetricsCollector.mk' W).metrics = [] := rfl
  have h0 : (MetricsCollector.mk' W).totalRequests = 0 := rfl
  have h0s : (MetricsCollector.mk' W).totalSuccesses = 0 := rfl
  have h0f : (MetricsCollector.mk' W).totalFailures = 0 := rfl
  simp only [hw, hm, h0, h0s, h0f, List.nil_append, List.length_nil, Nat.zero_add,
    zero_add] at s1 s2 s3 s4
  refine ⟨s1, ?_, s2, s3, s4⟩
  rw [s1, List.length_drop]
  omega

/-! ## Retry-classification claims -/

open Drip in
/-- Claim C6: for an `Error` value, `isRetryableError` returns true exactly
when the message carries a network-failure token or the error's status code
is a member of `retryableStatusCodes`; otherwise false.  In particular,
under the default config a token-free error with `statusCode = 500` is
retryable, one with `statusCode = 404` is not, and a message containing the
token `network` is retryable regardless of status code. -/
theorem claim_C6_retryable_classification (cfg : Drip.RetryConfig)
    (e : Drip.ErrObj) (hE : e.isErrorInstance = true) :
    (Drip.isRetryableError e cfg = true ↔
      (Drip.hasNetworkToken e.message = true ∨
        ∃ c, e.statusCode = some c ∧ c ∈ cfg.retryableStatusCodes)) ∧
      (Drip.hasNetworkToken e.message = false → e.statusCode = some 500 →
        Drip.isRetryableError e Drip.DEFAULT_RETRY_CONFIG = true) ∧
      (Drip.hasNetworkToken e.message = false → e.statusCode = some 404 →
        Drip.isRetryableError e Drip.DEFAULT_RETRY_CONFIG = false) ∧
      (Drip.hasNetworkToken e.message = true →
        Drip.isRetryableError e cfg = true) := by
  have hmain : ∀ cfg' : Drip.RetryConfig, Drip.isRetryableError e cfg' = true ↔
      (Drip.hasNetworkToken e.message = true ∨
        ∃ c, e.statusCode = some c ∧ c ∈ cfg'.retryableStatusCodes) := by
    intro cfg'
    unfold Drip.isRetryableError
    rw [hE, if_pos rfl]
    rcases hnet : Drip.hasNetworkToken e.message with _ | _
    · rw [if_neg (by simp [hnet])]
      rcases hsc : e.statusCode with _ | c
      · simp
      · simp [List.contains_iff_exists_mem_beq]
    · simp
  refine ⟨hmain cfg, ?_, ?_, fun hnet => (hmain cfg).mpr (Or.inl hnet)⟩
  · intro hnet h500
    exact (hmain Drip.DEFAULT_RETRY_CONFIG).mpr
      (Or.inr ⟨500, h500, by simp [Drip.DEFAULT_RETRY_CONFIG]⟩)
  · intro hnet h404
    rcases hres : Drip.isRetryableError e Drip.DEFAULT_RETRY_CONFIG with _ | _
    · rfl
    · exfalso
      rcases (hmain Drip.DEFAULT_RETRY_CONFIG).mp hres with h | ⟨c, hc, hmem⟩
      · rw [hnet] at h; exact Bool.false_ne_true h
      · rw [h404] at hc
        obtain rfl : c = 404 := by injection hc with h; omega
        simp [Drip.DEFAULT_RETRY_CONFIG] at hmem

open Drip in
/-- Claim C6 witness: a token-free error with status 500 is retryable under
the default config, one with status 404 is not, and an `ETIMEDOUT`-style
network message is retryable even with status 404. -/
theorem claim_C6_witness :
    Drip.isRetryableError ⟨true, "Error", "boom", some 500⟩
        Drip.DEFAULT_RETRY_CONFIG = true ∧
      Drip.isRetryableError ⟨true, "Error", "boom", some 404⟩
        Drip.DEFAULT_RETRY_CONFIG = false ∧
      Drip.isRetryableError ⟨true, "Error", "network down", some 404⟩
        Drip.DEFAULT_RETRY_CONFIG = true := by
  refine ⟨?_, ?_, ?_⟩
  · exact (claim_C6_retryable_classification Drip.DEFAULT_RETRY_CONFIG
      ⟨true, "Error", "boom", some 500⟩ rfl).2.1 (by decide) rfl
  · exact (claim_C6_retryable_classification Drip.DEFAULT_RETRY_CONFIG
      ⟨true, "Error", "boom", some 404⟩ rfl).2.2.1 (by decide) rfl
  · exact (claim_C6_retryable_classification Drip.DEFAULT_RETRY_CONFIG
      ⟨true, "Error", "network down", some 404⟩ rfl).2.2.2 (by decide)

/-! ## Execute-loop lemmas and claims -/

open Drip in
/-- The terminal success branch satisfies the loop invariant. -/
lemma successResult_invariant {T : Type} (v : T) (method endpoint : String)
    (duration : ℚ) (timestamp : Int) (rc : Nat) (cb : Drip.CircuitBreaker)
    (mc : Option Drip.MetricsCollector) (brs mrs fns : Nat) :
    Drip.LoopInvariant mc brs mrs
      (Drip.successResult v method endpoint duration timestamp rc cb mc brs mrs fns) := by
  refine ⟨Or.inl ⟨v, rfl⟩, rfl, rfl, fun hsome => ?_⟩
  refine ⟨⟨method, endpoint, some 200, duration, true, timestamp, none, rc⟩, ?_,
    fun _ => ⟨rfl, rfl⟩, fun e he => nomatch he⟩
  show (if mc.isSome = true
      then some (⟨method, endpoint, some 200, duration, true, timestamp, none, rc⟩ :
        Drip.RequestMetrics)
      else none)
    = some ⟨method, endpoint, some 200, duration, true, timestamp, none, rc⟩
  rw [if_pos hsome]

open Drip in
/-- The terminal failure branch satisfies the loop invariant. -/
lemma failureResult_invariant {T : Type} (e : Drip.ErrObj) (method endpoint : String)
    (duration : ℚ) (timestamp now : Int) (rc : Nat) (cb : Drip.CircuitBreaker)
    (mc : Option Drip.MetricsCollector) (brs mrs fns : Nat) :
    Drip.LoopInvariant mc brs mrs
      ((Drip.failureResult e method endpoint duration timestamp now rc cb mc brs mrs fns :
        Drip.ExecResult T)) := by
  refine ⟨Or.inr ⟨e, rfl⟩, rfl, rfl, fun hsome => ?_⟩
  refine ⟨⟨method, endpoint, e.statusCode, duration, false, timestamp, some e.name, rc⟩,
    ?_, ?_, ?_⟩
  · show (if mc.isSome = true
        then some (⟨method, endpoint, e.statusCode, duration, false, timestamp,
          some e.name, rc⟩ : Drip.RequestMetrics)
        else none)
      = some ⟨method, endpoint, e.statusCode, duration, false, timestamp, some e.name, rc⟩
    rw [if_pos hsome]
  · rintro ⟨v, hv⟩
    exact nomatch hv
  · intro e' he'
    obtain rfl : e' = e := by
      injection he' with h1
      injection h1 with h2
      exact h2.symm
    exact ⟨rfl, rfl⟩

open Drip in
/-- Every entered attempt loop satisfies `LoopInvariant`: by induction on
the number of attempts remaining. -/
lemma executeLoop_spec {T : Type} (retry : Drip.RetryConfig)
    (fn : Nat → Except Drip.ErrObj T) (method endpoint : String) (duration : ℚ)
    (timestamp now : Int) (mc : Option Drip.MetricsCollector) :
    ∀ (d attempt retryCount : Nat) (lastError : Option Drip.ErrObj)
      (cb : Drip.CircuitBreaker) (brs mrs fns : Nat),
      retry.maxRetries - attempt = d → attempt ≤ retry.maxRetries →
      Drip.LoopInvariant mc brs mrs
        (Drip.executeLoop retry fn method endpoint duration timestamp now
          attempt retryCount lastError cb mc brs mrs fns) := by
  intro d
  induction d with
  | zero =>
      intro attempt retryCount lastError cb brs mrs fns hd hle
      rw [Drip.executeLoop.eq_def, dif_pos hle]
      cases hfn : fn attempt with
      | ok v =>
          exact successResult_invariant v method endpoint duration timestamp
            retryCount cb mc brs mrs fns
      | error e =>
          have hnr : ¬ ((retry.enabled && Drip.isRetryableError e retry) = true
              ∧ attempt < retry.maxRetries) := by
            rintro ⟨-, hlt⟩
            omega
          show Drip.LoopInvariant mc brs mrs
            (if h2 : (retry.enabled && Drip.isRetryableError e retry) = true
                ∧ attempt < retry.maxRetries then
              Drip.executeLoop retry fn method endpoint duration timestamp now
                (attempt + 1) (retryCount + 1) (some e) cb mc brs mrs (fns + 1)
            else
              Drip.failureResult e method endpoint duration timestamp now
                retryCount cb mc brs mrs fns)
          rw [dif_neg hnr]
          exact failureResult_invariant e method endpoint duration timestamp now
            retryCount cb mc brs mrs fns
  | succ n ih =>
      intro attempt retryCount lastError cb brs mrs fns hd hle
      rw [Drip.executeLoop.eq_def, dif_pos hle]
      cases hfn : fn attempt with
      | ok v =>
          exact successResult_invariant v method endpoint duration timestamp
            retryCount cb mc brs mrs fns
      | error e =>
          show Drip.LoopInvariant mc brs mrs
            (if h2 : (retry.enabled && Drip.isRetryableError e retry) = true
                ∧ attempt < retry.maxRetries then
              Drip.executeLoop retry fn method endpoint duration timestamp now
                (attempt + 1) (retryCount + 1) (some e) cb mc brs mrs (fns + 1)
            else
              Drip.failureResult e method endpoint duration timestamp now
                retryCount cb mc brs mrs fns)
          by_cases hr : (retry.enabled && Drip.isRetryableError e retry) = true
              ∧ attempt < retry.maxRetries
          · rw [dif_pos hr]
            exact ih (attempt + 1) (retryCount + 1) (some e) cb brs mrs (fns + 1)
              (by omega) hr.2
          · rw [dif_neg hr]
            exact failureResult_invariant e method endpoint duration timestamp now
              retryCount cb mc brs mrs fns

open Drip in
/-- Claim C1: every entered attempt loop produces exactly one terminal
outcome — the operation's result or its propagated error — and that
terminal makes exactly one breaker-record call
(`recordSuccess`/`recordFailure`) and exactly one metrics-record call when
metrics are enabled (none when disabled), however many retryable failures
preceded it; intermediate retryable failures contribute nothing to either
count. -/
theorem claim_C1_exactly_once_accounting {T : Type} (retry : Drip.RetryConfig)
    (fn : Nat → Except Drip.ErrObj T) (method endpoint : String)
    (duration : ℚ) (timestamp now : Int) (cb : Drip.CircuitBreaker)
    (mc : Option Drip.MetricsCollector) :
    ((∃ v, (Drip.executeLoop retry fn method endpoint duration timestamp now
          0 0 none cb mc 0 0 0).outcome = Except.ok v) ∨
      (∃ e, (Drip.executeLoop retry fn method endpoint duration timestamp now
          0 0 none cb mc 0 0 0).outcome
        = Except.error (Drip.ExecError.opError e))) ∧
      (Drip.executeLoop retry fn method endpoint duration timestamp now
          0 0 none cb mc 0 0 0).breakerRecords = 1 ∧
      (Drip.executeLoop retry fn method endpoint duration timestamp now
          0 0 none cb mc 0 0 0).metricRecords
        = (if mc.isSome then 1 else 0) := by
  obtain ⟨h1, h2, h3, -⟩ := executeLoop_spec retry fn method endpoint duration
    timestamp now mc retry.maxRetries 0 0 none cb 0 0 0 (by omega) (Nat.zero_le _)
  refine ⟨h1, by omega, ?_⟩
  rw [h3, Nat.zero_add]

open Drip in
/-- Claim C9: the post-loop fallback of `execute` (`RetryExhaustedError`, or
the `'Unexpected execution path'` error) is unreachable — every entered
attempt loop returns the operation's result or throws the operation's own
error before the loop exits. -/
theorem claim_C9_fallback_unreachable {T : Type} (retry : Drip.RetryConfig)
    (fn : Nat → Except Drip.ErrObj T) (method endpoint : String)
    (duration : ℚ) (timestamp now : Int) (cb : Drip.CircuitBreaker)
    (mc : Option Drip.MetricsCollector) :
    ((∃ v, (Drip.executeLoop retry fn method endpoint duration timestamp now
          0 0 none cb mc 0 0 0).outcome = Except.ok v) ∨
      (∃ e, (Drip.executeLoop retry fn method endpoint duration timestamp now
          0 0 none cb mc 0 0 0).outcome
        = Except.error (Drip.ExecError.opError e))) ∧
      (∀ a e', (Drip.executeLoop retry fn method endpoint duration timestamp now
          0 0 none cb mc 0 0 0).outcome
        ≠ Except.error (Drip.ExecError.retryExhausted a e')) ∧
      (Drip.executeLoop retry fn method endpoint duration timestamp now
          0 0 none cb mc 0 0 0).outcome
        ≠ Except.error Drip.ExecError.unexpectedPath := by
  obtain ⟨h1, -, -, -⟩ := executeLoop_spec retry fn method endpoint duration
    timestamp now mc retry.maxRetries 0 0 none cb 0 0 0 (by omega) (Nat.zero_le _)
  refine ⟨h1, ?_, ?_⟩
  · intro a e' hcontra
    rcases h1 with ⟨v, hv⟩ | ⟨e, he⟩
    · rw [hcontra] at hv
      exact nomatch hv
    · rw [hcontra] at he
      injection he with h
      exact nomatch h
  · intro hcontra
    rcases h1 with ⟨v, hv⟩ | ⟨e, he⟩
    · rw [hcontra] at hv
      exact nomatch hv
    · rw [hcontra] at he
      injection he with h
      exact nomatch h

open Drip in
/-- Claim C10: with metrics enabled, the metric recorded by a successful
run of the attempt loop always carries `statusCode = 200` (and
`success = true`), whatever the wrapped operation returned; only a failing
run's metric extracts the status code from the error (null when the error
carries none). -/
theorem claim_C10_success_metric_statuscode {T : Type} (retry : Drip.RetryConfig)
    (fn : Nat → Except Drip.ErrObj T) (method endpoint : String)
    (duration : ℚ) (timestamp now : Int) (cb : Drip.CircuitBreaker)
    (m0 : Drip.MetricsCollector) :
    ∃ rm, (Drip.executeLoop retry fn method endpoint duration timestamp now
          0 0 none cb (some m0) 0 0 0).recorded = some rm ∧
      ((∃ v, (Drip.executeLoop retry fn method endpoint duration timestamp now
          0 0 none cb (some m0) 0 0 0).outcome = Except.ok v) →
        rm.statusCode = some 200 ∧ rm.success = true) ∧
      (∀ e, (Drip.executeLoop retry fn method endpoint duration timestamp now
          0 0 none cb (some m0) 0 0 0).outcome
          = Except.error (Drip.ExecError.opError e) →
        rm.statusCode = e.statusCode ∧ rm.success = false) := by
  obtain ⟨-, -, -, h4⟩ := executeLoop_spec retry fn method endpoint duration
    timestamp now (some m0) retry.maxRetries 0 0 none cb 0 0 0 (by omega)
    (Nat.zero_le _)
  exact h4 rfl

open Drip in
/-- Claim C10 witness: a concrete always-succeeding operation records a
metric with `statusCode = 200`. -/
theorem claim_C10_witness :
    ∃ rm, (Drip.executeLoop Drip.DEFAULT_RETRY_CONFIG
          (fun _ => Except.ok (42 : Nat)) "GET" "x" 0 0 0 0 0 none
          (Drip.CircuitBreaker.mk' ("drip_api") Drip.DEFAULT_CIRCUIT_BREAKER_CONFIG)
          (some (Drip.MetricsCollector.mk' 1000)) 0 0 0).recorded = some rm ∧
      rm.statusCode = some 200 := by
  obtain ⟨rm, h1, h2, -⟩ := claim_C10_success_metric_statuscode
    Drip.DEFAULT_RETRY_CONFIG (fun _ => Except.ok (42 : Nat)) "GET" "x" 0 0 0
    (Drip.CircuitBreaker.mk' ("drip_api") Drip.DEFAULT_CIRCUIT_BREAKER_CONFIG)
    (Drip.MetricsCollector.mk' 1000)
  refine ⟨rm, h1, (h2 ⟨42, ?_⟩).1⟩
  simp [Drip.executeLoop, Drip.successResult]

open Drip Drip.CircuitBreaker in
/-- When `allowRequest` rejects, the lazy transition check changed nothing:
the returned breaker state is the receiver itself. -/
lemma allowRequest_false (cb : Drip.CircuitBreaker) (now : Int)
    (h : (cb.allowRequest now).1 = false) :
    (cb.allowRequest now).2 = cb := by
  obtain ⟨name, config, state, fc, sc, lf⟩ := cb
  cases hen : config.enabled
  · exfalso
    simp [CircuitBreaker.allowRequest, hen] at h
  · cases state
    case closed =>
      exfalso
      simp [CircuitBreaker.allowRequest, CircuitBreaker.checkStateTransition, hen] at h
    case half_open =>
      exfalso
      simp [CircuitBreaker.allowRequest, CircuitBreaker.checkStateTransition, hen] at h
    case opened =>
      rcases lf with _ | t
      · simp [CircuitBreaker.allowRequest, CircuitBreaker.checkStateTransition, hen]
      · by_cases hto : now - t ≥ config.timeoutMs
        · exfalso
          simp [CircuitBreaker.allowRequest, CircuitBreaker.checkStateTransition,
            hen, hto] at h
        · simp [CircuitBreaker.allowRequest, CircuitBreaker.checkStateTransition,
            hen, hto]

open Drip in
/-- Claim C2: an `execute` call that passed rate limiting but whose
`allowRequest()` check returns false throws `CircuitBreakerOpenError`
carrying the circuit's name and the current time-until-retry, and the
wrapped operation is never invoked. -/
theorem claim_C2_open_circuit_fails_fast {T : Type} (retry : Drip.RetryConfig)
    (cb : Drip.CircuitBreaker) (mc : Option Drip.MetricsCollector)
    (fn : Nat → Except Drip.ErrObj T) (method endpoint : String)
    (duration : ℚ) (timestamp now : Int)
    (hreject : (cb.allowRequest now).1 = false) :
    (Drip.execute retry cb mc fn method endpoint true duration timestamp now).outcome
        = Except.error (Drip.ExecError.circuitOpen cb.name (cb.getTimeUntilRetry now)) ∧
      (Drip.execute retry cb mc fn method endpoint true duration timestamp now).fnCalls
        = 0 := by
  have hfix := allowRequest_false cb now hreject
  simp [Drip.execute, hreject, hfix]

open Drip in
/-- Claim C2 witness: a freshly opened breaker (`failureThreshold = 1`,
failure at time 0, checked at time 0) makes `execute` throw
`CircuitBreakerOpenError("drip_api", 30000)` without calling the
operation. -/
theorem claim_C2_witness :
    ((⟨"drip_api", ⟨1, 2, 30000, true⟩, .opened, 1, 0, some 0⟩ :
        Drip.CircuitBreaker).allowRequest 0).1 = false ∧
      (Drip.execute Drip.DEFAULT_RETRY_CONFIG
          ⟨"drip_api", ⟨1, 2, 30000, true⟩, .opened, 1, 0, some 0⟩ none
          (fun _ => Except.ok (0 : Nat)) "GET" "x" true 0 0 0).outcome
        = Except.error (Drip.ExecError.circuitOpen "drip_api" 30000) ∧
      (Drip.execute Drip.DEFAULT_RETRY_CONFIG
          ⟨"drip_api", ⟨1, 2, 30000, true⟩, .opened, 1, 0, some 0⟩ none
          (fun _ => Except.ok (0 : Nat)) "GET" "x" true 0 0 0).fnCalls = 0 := by
  have h := claim_C2_open_circuit_fails_fast Drip.DEFAULT_RETRY_CONFIG
    ⟨"drip_api", ⟨1, 2, 30000, true⟩, .opened, 1, 0, some 0⟩ none
    (fun _ => Except.ok (0 : Nat)) "GET" "x" 0 0 0 (by decide)
  refine ⟨by decide, ?_, h.2⟩
  rw [h.1]
  rfl
